import Mathlib

/-!
Verification of the Jamper repository's streaming core against its
natural-language specification.

The definitions below are shallow embeddings of the JavaScript source:

* `Jamper.consumeSSE` embeds `consumeSSE` (src/public/app.js, lines 884-916):
  raw text chunks (the output of the streaming `TextDecoder`, modelled as
  `List Char`) are accumulated in a pending buffer, split on the blank-line
  separator `"\n\n"`, and the complete events are scanned for `data:` lines,
  with the `[DONE]` sentinel halting the whole stream and unparsable payloads
  skipped.
* `Jamper.applyPerplexityChunk` / `Jamper.applyPerplexityFinal` embed the
  result-merge engine (lines 1111-1146).
* `Jamper.runDeepResearchAsync` / `Jamper.pollLoop` embed the async poll loop
  (lines 1044-1109), with the network scripted as a list of poll steps.
* `Jamper.buildPayload` embeds the request payload builder (lines 804-859).
* `Jamper.getApiKey` / `Jamper.proxyPerplexity` embed the credential check of
  the proxy (src/server.js, lines 37-42 and 61-65).
-/

namespace Jamper

/-- JavaScript `String.prototype.trim`, on the character list model:
whitespace is stripped from both ends. -/
def jsTrim (l : List Char) : List Char :=
  ((l.dropWhile Char.isWhitespace).reverse.dropWhile Char.isWhitespace).reverse

/-- JavaScript `String.prototype.trim` lifted to `String` through the
character-list model. -/
def strTrim (s : String) : String :=
  (jsTrim s.toList).asString

/-- Prepends a character to the first complete event of a split result, or to
the trailing buffer when no complete event exists yet. -/
def consCell (c : Char) : List (List Char) × List Char → List (List Char) × List Char
  | ([], r) => ([], c :: r)
  | (e :: es, r) => ((c :: e) :: es, r)

/-- Embeds `buffer.split(/\n\n/)` followed by `buffer = events.pop() || ''`
(app.js 896-897): leftmost, non-overlapping splitting of the buffer on the
blank-line separator.  Returns the list of complete events together with the
trailing (possibly incomplete) fragment that becomes the new buffer. -/
def sseSplit : List Char → List (List Char) × List Char
  | [] => ([], [])
  | [c] => ([], [c])
  | c :: c' :: cs =>
    if c = '\n' ∧ c' = '\n' then
      ([] :: (sseSplit cs).1, (sseSplit cs).2)
    else consCell c (sseSplit (c' :: cs))

/-- Embeds `evt.split(/\n/)` (app.js 901). -/
def splitNl : List Char → List (List Char)
  | [] => [[]]
  | c :: cs =>
    if c = '\n' then [] :: splitNl cs
    else
      match splitNl cs with
      | [] => [[c]]
      | t :: ts => (c :: t) :: ts

/-- Embeds `evt.split(/\n/).map(l => l.trim()).filter(Boolean)` (app.js 900-903). -/
def sseLines (evt : List Char) : List (List Char) :=
  ((splitNl evt).map jsTrim).filter (fun l => l ≠ [])

/-- Embeds the inner `for (const line of lines)` loop of `consumeSSE`
(app.js 905-913).  `parse` stands for `safeJsonParse` composed with the
truthiness test `if (obj)`; the returned flag records whether the `[DONE]`
sentinel was reached, which aborts the whole stream. -/
def processLines {α : Type} (parse : List Char → Option α) :
    List (List Char) → List α × Bool
  | [] => ([], false)
  | l :: ls =>
    if "data:".toList.isPrefixOf l then
      let data := jsTrim (l.drop 5)
      if data = [] then processLines parse ls
      else if data = "[DONE]".toList then ([], true)
      else
        match parse data with
        | some o =>
          let r := processLines parse ls
          (o :: r.1, r.2)
        | none => processLines parse ls
    else processLines parse ls

/-- One complete raw event (app.js 899-913). -/
def processEvt {α : Type} (parse : List Char → Option α) (evt : List Char) :
    List α × Bool :=
  processLines parse (sseLines evt)

/-- The `for (const evt of events)` loop of `consumeSSE` (app.js 899-914),
with the `[DONE]` early return propagated. -/
def processEvents {α : Type} (parse : List Char → Option α) :
    List (List Char) → List α × Bool
  | [] => ([], false)
  | e :: es =>
    let r := processEvt parse e
    if r.2 then (r.1, true)
    else
      let r2 := processEvents parse es
      (r.1 ++ r2.1, r2.2)

/-- The `while (true)` read loop of `consumeSSE` (app.js 889-915): the first
argument is the durable pending buffer, the second the remaining chunks the
reader will deliver; when the reader reports done the loop breaks and
whatever is left in the buffer is dropped. -/
def consumeSSEGo {α : Type} (parse : List Char → Option α) :
    List Char → List (List Char) → List α
  | _buffer, [] => []
  | buffer, chunk :: rest =>
    let p := sseSplit (buffer ++ chunk)
    let r := processEvents parse p.1
    if r.2 then r.1 else r.1 ++ consumeSSEGo parse p.2 rest

/-- Embeds `consumeSSE` (app.js 884-916): the decoded events delivered to
`onChunk`, in order, for a given sequence of text chunks. -/
def consumeSSE {α : Type} (parse : List Char → Option α)
    (chunks : List (List Char)) : List α :=
  consumeSSEGo parse [] chunks

theorem sseSplit_no_sep : ∀ l : List Char, (sseSplit l).1 = [] → (sseSplit l).2 = l := by
  intro l
  induction l using sseSplit.induct with
  | case1 => intro _; rfl
  | case2 c => intro _; rfl
  | case3 c c' cs h ih =>
    simp only [sseSplit, if_pos h]
    intro hc
    exact absurd hc (by simp)
  | case4 c c' cs h ih =>
    simp only [sseSplit, if_neg h]
    match hp : sseSplit (c' :: cs) with
    | ([], r) =>
      rw [hp] at ih
      intro _
      simpa [consCell] using congrArg (c :: ·) (ih rfl)
    | (e :: es, r) =>
      intro hc
      exact absurd hc (by simp [consCell])

theorem sseSplit_append (a b : List Char) :
    sseSplit (a ++ b) =
      ((sseSplit a).1 ++ (sseSplit ((sseSplit a).2 ++ b)).1,
       (sseSplit ((sseSplit a).2 ++ b)).2) := by
  induction a using sseSplit.induct with
  | case1 =>
    simp [sseSplit]
  | case2 c =>
    simp [sseSplit]
  | case3 c c' cs h ih =>
    have lhs : sseSplit ((c :: c' :: cs) ++ b)
        = ([] :: (sseSplit (cs ++ b)).1, (sseSplit (cs ++ b)).2) := by
      show sseSplit (c :: c' :: (cs ++ b)) = _
      simp only [sseSplit, if_pos h]
    have rhs : sseSplit (c :: c' :: cs)
        = ([] :: (sseSplit cs).1, (sseSplit cs).2) := by
      simp only [sseSplit, if_pos h]
    rw [lhs, rhs, ih]
    rfl
  | case4 c c' cs h ih =>
    have lhs : sseSplit ((c :: c' :: cs) ++ b)
        = consCell c (sseSplit (c' :: (cs ++ b))) := by
      show sseSplit (c :: c' :: (cs ++ b)) = _
      simp only [sseSplit, if_neg h]
    have rhs : sseSplit (c :: c' :: cs) = consCell c (sseSplit (c' :: cs)) := by
      simp only [sseSplit, if_neg h]
    rw [lhs, rhs]
    match hq : sseSplit (c' :: cs) with
    | ([], r) =>
      have hr : r = c' :: cs := by
        have h4 := sseSplit_no_sep (c' :: cs)
        rw [hq] at h4
        exact h4 rfl
      subst hr
      show consCell c (sseSplit (c' :: (cs ++ b)))
          = ((sseSplit ((c :: c' :: cs) ++ b)).1, (sseSplit ((c :: c' :: cs) ++ b)).2)
      rw [Prod.mk.eta, lhs]
    | (e :: es, r) =>
      have ih2 : sseSplit (c' :: (cs ++ b))
          = ((e :: es) ++ (sseSplit (r ++ b)).1, (sseSplit (r ++ b)).2) := by
        rw [show c' :: (cs ++ b) = (c' :: cs) ++ b from rfl, ih, hq]
      rw [ih2]
      rfl

theorem processEvents_append {α : Type} (parse : List Char → Option α)
    (l₁ l₂ : List (List Char)) :
    processEvents parse (l₁ ++ l₂) =
      if (processEvents parse l₁).2 then processEvents parse l₁
      else ((processEvents parse l₁).1 ++ (processEvents parse l₂).1,
            (processEvents parse l₂).2) := by
  induction l₁ with
  | nil => simp [processEvents]
  | cons e es ih =>
    show processEvents parse (e :: (es ++ l₂)) = _
    simp only [processEvents]
    by_cases hd : (processEvt parse e).2
    · simp [hd]
    · simp only [hd, if_false, ih]
      by_cases ht : (processEvents parse es).2
      · simp [ht]
      · simp [ht, List.append_assoc]

theorem consumeSSEGo_merge {α : Type} (parse : List Char → Option α)
    (buf c₁ c₂ : List Char) (rest : List (List Char)) :
    consumeSSEGo parse buf (c₁ :: c₂ :: rest)
      = consumeSSEGo parse buf ((c₁ ++ c₂) :: rest) := by
  have hsplit : sseSplit (buf ++ (c₁ ++ c₂))
      = ((sseSplit (buf ++ c₁)).1 ++ (sseSplit ((sseSplit (buf ++ c₁)).2 ++ c₂)).1,
         (sseSplit ((sseSplit (buf ++ c₁)).2 ++ c₂)).2) := by
    rw [← List.append_assoc]
    exact sseSplit_append (buf ++ c₁) c₂
  show consumeSSEGo parse buf (c₁ :: c₂ :: rest) = consumeSSEGo parse buf ((c₁ ++ c₂) :: rest)
  simp only [consumeSSEGo, hsplit,
    processEvents_append parse (sseSplit (buf ++ c₁)).1 (sseSplit ((sseSplit (buf ++ c₁)).2 ++ c₂)).1]
  by_cases h1 : (processEvents parse (sseSplit (buf ++ c₁)).1).2
  · simp [h1]
  · by_cases h2 : (processEvents parse (sseSplit ((sseSplit (buf ++ c₁)).2 ++ c₂)).1).2
    · simp [h1, h2]
    · simp [h1, h2, List.append_assoc]

/-- C1: for every raw stream (modelled as the character sequence delivered by
the streaming text decoder) and every split of it into two chunks at any
offset, feeding the two chunks to `consumeSSE` in order yields exactly the
same sequence of decoded events, in the same order, as feeding the whole
stream as one chunk; in particular a blank-line separator split exactly at
the chunk boundary neither duplicates nor drops an event, because the
trailing incomplete fragment is retained as the durable buffer state across
reads.  `parse` stands for the JSON parse and truthiness filter applied to
each `data:` payload, so equality of the emitted sequences holds for the
decoded events themselves. -/
theorem consumeSSE_split_invariant {α : Type} (parse : List Char → Option α)
    (s : List Char) (i : Nat) :
    consumeSSE parse [s.take i, s.drop i] = consumeSSE parse [s] := by
  show consumeSSEGo parse [] [s.take i, s.drop i] = consumeSSEGo parse [] [s]
  rw [consumeSSEGo_merge parse [] (s.take i) (s.drop i) [], List.take_append_drop]

/-- C9: if the byte stream ends (the reader reports done) without the
`[DONE]` sentinel and without a trailing blank-line separator, any event text
still held in the decoder's pending buffer is silently discarded and never
emitted: on end of stream the loop simply breaks whatever the buffer holds
(first conjunct), and a chunk containing no blank-line separator therefore
produces no events at all (second conjunct, the hypothesis saying the split
found no complete event). -/
theorem consumeSSE_discards_pending {α : Type} (parse : List Char → Option α) :
    (∀ buf, consumeSSEGo parse buf [] = []) ∧
    (∀ s, (sseSplit s).1 = [] → consumeSSE parse [s] = []) := by
  constructor
  · intro buf; rfl
  · intro s h
    show consumeSSEGo parse [] [s] = []
    simp [consumeSSEGo, h, processEvents]

/-- Identity payload decoder used to exercise the decoder theorems on
concrete inputs. -/
def idParse (l : List Char) : Option (List Char) := some l

/-- Witness for C9: a stream holding one complete-looking `data:` line that
is never terminated by a blank line emits nothing. -/
theorem consumeSSE_discards_pending_witness :
    consumeSSEGo idParse "data: 1".toList [] = [] ∧
    consumeSSE idParse ["data: 1\n".toList] = [] :=
  ⟨(consumeSSE_discards_pending idParse).1 _,
   (consumeSSE_discards_pending idParse).2 _ (by decide)⟩

/-- The side-channel metadata of one assistant message (`assistantMsg.meta`,
app.js 956-964, plus the `async` note added by the poller, app.js 1068).
Array- and object-valued wire fields are modelled by lists; the merge engine
never inspects their elements. -/
structure MsgMeta where
  citations : List String := []
  search_results : List String := []
  usage : List (String × Nat) := []
  reasoning_steps : List String := []
  images : List String := []
  videos : List String := []
  related_questions : List String := []
  async : Option String := none
deriving DecidableEq

/-- The result accumulator for one exchange (`assistantMsg`, app.js 953-965). -/
structure Msg where
  content : String := ""
  meta : MsgMeta := {}
deriving DecidableEq

/-- Field `choices[0].delta` of a streaming chunk. -/
structure Delta where
  content : Option String := none
  reasoning_steps : Option (List String) := none
deriving DecidableEq

/-- Field `choices[0].message` of a final (non-streaming) payload. -/
structure ChoiceMessage where
  content : Option String := none
deriving DecidableEq

/-- One element of the `choices` array of an upstream response. -/
structure Choice where
  delta : Option Delta := none
  message : Option ChoiceMessage := none
deriving DecidableEq

/-- An upstream response object: a streaming chunk or a final payload.
`none` models an absent (or JSON-falsy) field, matching the `if (chunk.X)`
presence tests of the source; the recognized side-channel fields are
arrays/objects on the wire, which are always truthy in JavaScript when
present. -/
structure PResponse where
  choices : List Choice := []
  citations : Option (List String) := none
  search_results : Option (List String) := none
  usage : Option (List (String × Nat)) := none
  reasoning_steps : Option (List String) := none
  images : Option (List String) := none
  videos : Option (List String) := none
  related_questions : Option (List String) := none
deriving DecidableEq

/-- One `if (chunk.citations) msg.meta.citations = chunk.citations;`
statement of the source: replace the field when the value is present. -/
def updCitations (o : Option (List String)) (m : MsgMeta) : MsgMeta :=
  match o with
  | some v => { m with citations := v }
  | none => m

/-- Statement `if (chunk.search_results) msg.meta.search_results = ...;`. -/
def updSearchResults (o : Option (List String)) (m : MsgMeta) : MsgMeta :=
  match o with
  | some v => { m with search_results := v }
  | none => m

/-- Statement `if (chunk.usage) msg.meta.usage = ...;`. -/
def updUsage (o : Option (List (String × Nat))) (m : MsgMeta) : MsgMeta :=
  match o with
  | some v => { m with usage := v }
  | none => m

/-- Statement `if (chunk.reasoning_steps) msg.meta.reasoning_steps = ...;`. -/
def updReasoningSteps (o : Option (List String)) (m : MsgMeta) : MsgMeta :=
  match o with
  | some v => { m with reasoning_steps := v }
  | none => m

/-- Statement `if (chunk.images) msg.meta.images = ...;`. -/
def updImages (o : Option (List String)) (m : MsgMeta) : MsgMeta :=
  match o with
  | some v => { m with images := v }
  | none => m

/-- Statement `if (chunk.videos) msg.meta.videos = ...;`. -/
def updVideos (o : Option (List String)) (m : MsgMeta) : MsgMeta :=
  match o with
  | some v => { m with videos := v }
  | none => m

/-- Statement `if (chunk.related_questions) msg.meta.related_questions = ...;`. -/
def updRelatedQuestions (o : Option (List String)) (m : MsgMeta) : MsgMeta :=
  match o with
  | some v => { m with related_questions := v }
  | none => m

@[simp] theorem updCitations_eq (o : Option (List String)) (m : MsgMeta) :
    updCitations o m = { m with citations := o.getD m.citations } := by
  cases o <;> rfl

@[simp] theorem updSearchResults_eq (o : Option (List String)) (m : MsgMeta) :
    updSearchResults o m = { m with search_results := o.getD m.search_results } := by
  cases o <;> rfl

@[simp] theorem updUsage_eq (o : Option (List (String × Nat))) (m : MsgMeta) :
    updUsage o m = { m with usage := o.getD m.usage } := by
  cases o <;> rfl

@[simp] theorem updReasoningSteps_eq (o : Option (List String)) (m : MsgMeta) :
    updReasoningSteps o m = { m with reasoning_steps := o.getD m.reasoning_steps } := by
  cases o <;> rfl

@[simp] theorem updImages_eq (o : Option (List String)) (m : MsgMeta) :
    updImages o m = { m with images := o.getD m.images } := by
  cases o <;> rfl

@[simp] theorem updVideos_eq (o : Option (List String)) (m : MsgMeta) :
    updVideos o m = { m with videos := o.getD m.videos } := by
  cases o <;> rfl

@[simp] theorem updRelatedQuestions_eq (o : Option (List String)) (m : MsgMeta) :
    updRelatedQuestions o m = { m with related_questions := o.getD m.related_questions } := by
  cases o <;> rfl

/-- Embeds `applyPerplexityChunk` (app.js 1111-1134).  The content delta is
appended when truthy (non-empty); each recognized side-channel field present
in the chunk replaces the accumulator's field; a `reasoning_steps` found
under `choices[0].delta` replaces the field last. -/
def applyPerplexityChunk (msg : Msg) (chunk : PResponse) : Msg :=
  let delta := (chunk.choices.head?).bind Choice.delta
  let content :=
    match delta.bind Delta.content with
    | some c => if c ≠ "" then msg.content ++ c else msg.content
    | none => msg.content
  let m := msg.meta
  let m := updCitations chunk.citations m
  let m := updSearchResults chunk.search_results m
  let m := updUsage chunk.usage m
  let m := updReasoningSteps chunk.reasoning_steps m
  let m := updImages chunk.images m
  let m := updVideos chunk.videos m
  let m := updRelatedQuestions chunk.related_questions m
  let m := updReasoningSteps (delta.bind Delta.reasoning_steps) m
  { msg with content := content, meta := m }

/-- Expression `data?.choices?.[0]?.message?.content` (app.js 1137). -/
def finalContent (data : PResponse) : Option String :=
  ((data.choices.head?).bind Choice.message).bind ChoiceMessage.content

/-- Embeds `applyPerplexityFinal` (app.js 1136-1146): the content is replaced
(not appended) when the payload carries one (`content != null`), and each
recognized side-channel field present in the payload replaces the
accumulator's field. -/
def applyPerplexityFinal (msg : Msg) (data : PResponse) : Msg :=
  let content :=
    match finalContent data with
    | some c => c
    | none => msg.content
  let m := msg.meta
  let m := updCitations data.citations m
  let m := updSearchResults data.search_results m
  let m := updUsage data.usage m
  let m := updReasoningSteps data.reasoning_steps m
  let m := updImages data.images m
  let m := updVideos data.videos m
  let m := updRelatedQuestions data.related_questions m
  { msg with content := content, meta := m }

/-- An incremental event carrying only a content delta and no side-channel
fields. -/
def deltaChunk (d : String) : PResponse :=
  { choices := [{ delta := some { content := some d } }] }

/-- Concatenation of a list of deltas in order. -/
def concatDeltas : List String → String
  | [] => ""
  | d :: ds => d ++ concatDeltas ds

theorem applyPerplexityChunk_deltaChunk (msg : Msg) (d : String) :
    applyPerplexityChunk msg (deltaChunk d) = { msg with content := msg.content ++ d } := by
  by_cases hd : d = ""
  · subst hd
    simp [applyPerplexityChunk, deltaChunk, String.append_empty]
  · simp [applyPerplexityChunk, deltaChunk, hd]

theorem foldl_deltaChunks (ds : List String) (msg : Msg) :
    (ds.map deltaChunk).foldl applyPerplexityChunk msg
      = { msg with content := msg.content ++ concatDeltas ds } := by
  induction ds generalizing msg with
  | nil => simp [concatDeltas, String.append_empty]
  | cons d ds ih =>
    simp [List.foldl, applyPerplexityChunk_deltaChunk, ih, concatDeltas,
      String.append_assoc]

/-- C2: merging a sequence of incremental events that carry only content
deltas (under `choices[0].delta.content`) and no side-channel fields, in
arrival order, into an accumulator whose content is initially empty leaves
the accumulator's content equal to the concatenation of the deltas in
arrival order, with no reordering and no deduplication. -/
theorem chunk_content_concat (ds : List String) (meta : MsgMeta) :
    ((ds.map deltaChunk).foldl applyPerplexityChunk { content := "", meta := meta }).content
      = concatDeltas ds := by
  rw [foldl_deltaChunks]
  simp [String.empty_append]

/-- Concrete accumulator used in the C3 counterexample. -/
def c3msg : Msg := {}

/-- Concrete event carrying `reasoning_steps` both at top level and under
`choices[0].delta`, used in the C3 counterexample. -/
def c3chunk : PResponse :=
  { choices := [{ delta := some { reasoning_steps := some ["B"] } }],
    reasoning_steps := some ["A"] }

/-- C3 counterexample: an event whose top-level `reasoning_steps` is present
with value `["A"]` does not leave the accumulator's field equal to that
value, because a `reasoning_steps` found under `choices[0].delta` is applied
afterwards and wins. -/
theorem chunk_side_channel_counterexample :
    c3chunk.reasoning_steps = some ["A"] ∧
    (applyPerplexityChunk c3msg c3chunk).meta.reasoning_steps ≠ ["A"] := by
  decide

/-- C3 (amended): for every incremental event whose `choices[0].delta`
carries no `reasoning_steps`, each recognized side-channel field present in
the event replaces the accumulator's field with exactly the event's value,
and each absent field is left untouched (`Option.getD` states both at once);
when the delta does carry `reasoning_steps`, that value overwrites the
`reasoning_steps` field last, regardless of the top-level field. -/
theorem chunk_side_channel_replace (msg : Msg) (chunk : PResponse)
    (h : ((chunk.choices.head?).bind Choice.delta).bind Delta.reasoning_steps = none) :
    (applyPerplexityChunk msg chunk).meta.citations
        = chunk.citations.getD msg.meta.citations ∧
    (applyPerplexityChunk msg chunk).meta.search_results
        = chunk.search_results.getD msg.meta.search_results ∧
    (applyPerplexityChunk msg chunk).meta.usage
        = chunk.usage.getD msg.meta.usage ∧
    (applyPerplexityChunk msg chunk).meta.reasoning_steps
        = chunk.reasoning_steps.getD msg.meta.reasoning_steps ∧
    (applyPerplexityChunk msg chunk).meta.images
        = chunk.images.getD msg.meta.images ∧
    (applyPerplexityChunk msg chunk).meta.videos
        = chunk.videos.getD msg.meta.videos ∧
    (applyPerplexityChunk msg chunk).meta.related_questions
        = chunk.related_questions.getD msg.meta.related_questions := by
  simp [applyPerplexityChunk, h]

/-- Concrete accumulator used in the C3 witness. -/
def c3wMsg : Msg :=
  { content := "x", meta := { citations := ["old"], videos := ["v"] } }

/-- Concrete event used in the C3 witness: two side-channel fields present,
five absent, no delta. -/
def c3wChunk : PResponse :=
  { citations := some ["c1", "c2"], usage := some [("total_tokens", 3)] }

/-- Witness for the amended C3 at a concrete input. -/
theorem chunk_side_channel_replace_witness :
    ((c3wChunk.choices.head?).bind Choice.delta).bind Delta.reasoning_steps = none ∧
    ((applyPerplexityChunk c3wMsg c3wChunk).meta.citations
        = c3wChunk.citations.getD c3wMsg.meta.citations ∧
     (applyPerplexityChunk c3wMsg c3wChunk).meta.search_results
        = c3wChunk.search_results.getD c3wMsg.meta.search_results ∧
     (applyPerplexityChunk c3wMsg c3wChunk).meta.usage
        = c3wChunk.usage.getD c3wMsg.meta.usage ∧
     (applyPerplexityChunk c3wMsg c3wChunk).meta.reasoning_steps
        = c3wChunk.reasoning_steps.getD c3wMsg.meta.reasoning_steps ∧
     (applyPerplexityChunk c3wMsg c3wChunk).meta.images
        = c3wChunk.images.getD c3wMsg.meta.images ∧
     (applyPerplexityChunk c3wMsg c3wChunk).meta.videos
        = c3wChunk.videos.getD c3wMsg.meta.videos ∧
     (applyPerplexityChunk c3wMsg c3wChunk).meta.related_questions
        = c3wChunk.related_questions.getD c3wMsg.meta.related_questions) :=
  ⟨by decide, chunk_side_channel_replace c3wMsg c3wChunk (by decide)⟩

/-- Modelled from the spec's words for the C4 comparison: "an incremental
event carrying the same content and the same side-channel fields" as a given
final payload — the payload's `choices[0].message.content` is re-packaged
under `choices[0].delta.content` and the side-channel fields are copied
verbatim. -/
def chunkOfFinal (data : PResponse) : PResponse :=
  { choices := [{ delta := some { content := finalContent data } }],
    citations := data.citations,
    search_results := data.search_results,
    usage := data.usage,
    reasoning_steps := data.reasoning_steps,
    images := data.images,
    videos := data.videos,
    related_questions := data.related_questions }

/-- Concrete accumulator with non-empty content for the C4 counterexample. -/
def c4msg : Msg := { content := "a" }

/-- Concrete final payload carrying content `"b"` for the C4 counterexample. -/
def c4data : PResponse := { choices := [{ message := some { content := some "b" } }] }

/-- C4 counterexample: on an accumulator whose content is `"a"`, the final
merge of a payload with content `"b"` yields content `"b"` (replace), while
one incremental merge of the event carrying the same content yields `"ab"`
(append), so the two merges differ. -/
theorem final_vs_chunk_counterexample :
    applyPerplexityFinal c4msg c4data ≠ applyPerplexityChunk c4msg (chunkOfFinal c4data) := by
  decide

/-- C4 (amended): on an accumulator whose content is empty, applying the
final-payload merge (`applyPerplexityFinal`) leaves the accumulator in the
same state as applying exactly one incremental-event merge
(`applyPerplexityChunk`) of an event carrying the same content and the same
side-channel fields.  For a non-empty accumulator the two differ: the final
merge replaces the content while the incremental merge appends to it. -/
theorem final_equiv_chunk_on_empty (meta : MsgMeta) (data : PResponse) :
    applyPerplexityFinal { content := "", meta := meta } data
      = applyPerplexityChunk { content := "", meta := meta } (chunkOfFinal data) := by
  cases hfc : finalContent data with
  | none => simp [applyPerplexityFinal, applyPerplexityChunk, chunkOfFinal, hfc]
  | some c =>
    by_cases hc : c = ""
    · subst hc
      simp [applyPerplexityFinal, applyPerplexityChunk, chunkOfFinal, hfc]
    · simp [applyPerplexityFinal, applyPerplexityChunk, chunkOfFinal, hfc, hc,
        String.empty_append]

/-- The JSON body of one poll response (`{ status, response?, error_message? }`,
app.js 1090).  `none` models an absent or JSON-falsy field. -/
structure PollData where
  status : Option String := none
  response : Option PResponse := none
  error_message : Option String := none
deriving DecidableEq

/-- Outcome of one scripted `fetch` of the poll endpoint: either an `ok`
response with a JSON body, or a non-success HTTP status with its body text
(app.js 1085-1088). -/
inductive FetchResult where
  | ok (data : PollData)
  | httpError (status : Nat) (text : String)
deriving DecidableEq

/-- One scripted iteration of the poll loop: whether the cancellation token
is found tripped at the iteration's checkpoint (`signal.aborted`, app.js
1074), and the network response that would arrive for this iteration's
fetch. -/
structure PollStep where
  aborted : Bool
  fetch : FetchResult
deriving DecidableEq

/-- How the poll loop ends, carrying the accumulator state at that moment:
`completed` returns normally, `failed` throws the upstream failure message,
`cancelled` throws `AbortError`, `httpError` throws on a non-success poll
status, and `outOfScript` means the scripted responses ran out with the loop
still polling. -/
inductive PollOutcome where
  | completed (msg : Msg)
  | failed (msg : Msg) (err : String)
  | cancelled (msg : Msg)
  | httpError (msg : Msg) (status : Nat) (text : String)
  | outOfScript (msg : Msg)
deriving DecidableEq

/-- Result of one poll iteration: continue looping with the updated
accumulator, or stop with an outcome. -/
inductive IterResult where
  | next (msg : Msg)
  | halt (out : PollOutcome)
deriving DecidableEq

/-- Expression `data.status || 'UNKNOWN'` (app.js 1092). -/
def statusOr (s : Option String) : String :=
  match s with
  | some v => if v = "" then "UNKNOWN" else v
  | none => "UNKNOWN"

/-- Assignment `assistantMsg.meta.async = note` (app.js 1068, 1092, 1101). -/
def setAsync (msg : Msg) (note : String) : Msg :=
  { msg with meta := { msg.meta with async := some note } }

/-- Embeds one iteration of the `while (true)` poll loop of
`runDeepResearchAsync` (app.js 1073-1107): the cancellation token is checked
first; a non-ok fetch throws; otherwise the async-status note is updated,
a `FAILED` status throws the upstream message, a `COMPLETED` status with an
attached response merges it as a final payload and returns, and anything
else loops.  The 3-second `sleep` between iterations has no observable
effect on the accumulator and is not modelled. -/
def pollIterate (id : String) (step : PollStep) (msg : Msg) : IterResult :=
  if step.aborted then .halt (.cancelled msg)
  else
    match step.fetch with
    | .httpError s t => .halt (.httpError msg s t)
    | .ok data =>
      let msg1 := setAsync msg ("Status: " ++ statusOr data.status ++ " • id: " ++ id)
      if data.status = some "FAILED" then
        .halt (.failed msg1
          (match data.error_message with
           | some e => if e = "" then "Deep research request failed" else e
           | none => "Deep research request failed"))
      else if data.status = some "COMPLETED" then
        match data.response with
        | some r =>
          .halt (.completed (setAsync (applyPerplexityFinal msg1 r) ("Completed • id: " ++ id)))
        | none => .next msg1
      else .next msg1

/-- The `while (true)` poll loop over a scripted sequence of iterations. -/
def pollLoop (id : String) : List PollStep → Msg → PollOutcome
  | [], msg => .outOfScript msg
  | step :: rest, msg =>
    match pollIterate id step msg with
    | .next msg1 => pollLoop id rest msg1
    | .halt out => out

/-- Embeds the post-submission part of `runDeepResearchAsync` (app.js
1067-1108): the accumulator is seeded with the "Request created" note and
the placeholder content (`assistantMsg.content || '⏳ ...'`), then the poll
loop runs over the scripted responses. -/
def runDeepResearchAsync (id : String) (script : List PollStep) (msg : Msg) : PollOutcome :=
  let msg1 :=
    { content :=
        if msg.content = "" then "⏳ Deep research is running. This can take a while."
        else msg.content,
      meta := { msg.meta with async := some ("Request created: " ++ id ++ ". Polling…") } }
  pollLoop id script msg1

/-- C6: once the per-exchange cancellation token is tripped mid-poll-loop,
the loop ends in the `cancelled` outcome carrying the accumulator exactly as
it was: no further mutation of content, side-channel fields, or async-status
note occurs, even though the pending network response for this iteration
(`step.fetch`, arbitrary) and any later scripted responses (`rest`,
arbitrary) are available — the token is checked at the top of every poll
iteration before anything else. -/
theorem poll_cancelled_no_mutation (id : String) (msg : Msg) (step : PollStep)
    (rest : List PollStep) (h : step.aborted = true) :
    pollLoop id (step :: rest) msg = .cancelled msg := by
  simp [pollLoop, pollIterate, h]

/-- Concrete accumulator state in the middle of a poll loop, for the C6
witness. -/
def c6msg : Msg := { content := "partial answer" }

/-- Concrete payload pending at the moment of cancellation, for the C6
witness. -/
def c6data : PResponse := { choices := [{ message := some { content := some "late" } }] }

/-- A poll step at which the cancellation token is found tripped while a
COMPLETED response with an attached payload was pending. -/
def c6step : PollStep :=
  { aborted := true,
    fetch := .ok { status := some "COMPLETED", response := some c6data } }

/-- A later scripted poll step that must never be processed. -/
def c6later : PollStep :=
  { aborted := false, fetch := .ok { status := some "POLLING" } }

/-- Witness for C6: a tripped token with a pending COMPLETED response and a
further scripted response leaves the accumulator untouched. -/
theorem poll_cancelled_no_mutation_witness :
    c6step.aborted = true ∧
    pollLoop "j" [c6step, c6later] c6msg = .cancelled c6msg :=
  ⟨rfl, poll_cancelled_no_mutation "j" c6msg c6step [c6later] rfl⟩

/-- C10: a poll response whose status is `COMPLETED` but which carries no
`response` field updates only the accumulator's async-status note — content
and every other side-channel field are untouched — and the loop continues
(`next`) rather than terminating, exactly like a non-terminal status. -/
theorem poll_completed_without_response (id : String) (msg : Msg) (em : Option String) :
    pollIterate id
        { aborted := false,
          fetch := .ok { status := some "COMPLETED", response := none, error_message := em } } msg
      = .next (setAsync msg ("Status: COMPLETED • id: " ++ id)) := by
  simp [pollIterate, statusOr]

/-- The scripted status sequence `SUBMITTED, POLLING, POLLING, COMPLETED`
whose last response attaches a final payload. -/
def completedScript (d : PResponse) : List PollStep :=
  [{ aborted := false, fetch := .ok { status := some "SUBMITTED" } },
   { aborted := false, fetch := .ok { status := some "POLLING" } },
   { aborted := false, fetch := .ok { status := some "POLLING" } },
   { aborted := false, fetch := .ok { status := some "COMPLETED", response := some d } }]

/-- Concrete final payload used for the C5 counterexample and witness. -/
def c5data : PResponse :=
  { choices := [{ message := some { content := some "R" } }], citations := some ["s1"] }

/-- C5 counterexample: for the scripted sequence the poller does terminate,
but the resulting accumulator does not match the non-streaming merge of the
payload alone exactly — its async-status note reads `Completed • id: j1`
while the plain merge leaves the note unset. -/
theorem poller_exact_match_counterexample :
    runDeepResearchAsync "j1" (completedScript c5data) {}
      = .completed (setAsync (applyPerplexityFinal {} c5data) "Completed • id: j1") ∧
    setAsync (applyPerplexityFinal {} c5data) "Completed • id: j1"
      ≠ applyPerplexityFinal {} c5data := by
  constructor
  · decide
  · decide

/-- C5 (amended): for the scripted poll-status sequence `SUBMITTED, POLLING,
POLLING, COMPLETED` whose last response attaches a final payload carrying a
message content, the poller terminates in the `completed` outcome and the
resulting accumulator equals the non-streaming merge of that payload into
the fresh accumulator, except for the async-status note, which the poller
sets to `Completed • id: <id>` while the plain merge leaves it untouched.
(The content hypothesis is needed: without it the placeholder text set at
submission would survive in place of the merge's content.) -/
theorem poller_matches_final_merge (id : String) (meta : MsgMeta) (d : PResponse)
    (c : String) (h : finalContent d = some c) :
    runDeepResearchAsync id (completedScript d) { content := "", meta := meta }
      = .completed (setAsync (applyPerplexityFinal { content := "", meta := meta } d)
          ("Completed • id: " ++ id)) := by
  simp [runDeepResearchAsync, completedScript, pollLoop, pollIterate, statusOr, setAsync,
    applyPerplexityFinal, h]

/-- Witness for the amended C5 at a concrete payload and id. -/
theorem poller_matches_final_merge_witness :
    finalContent c5data = some "R" ∧
    runDeepResearchAsync "j1" (completedScript c5data) { content := "", meta := {} }
      = .completed (setAsync (applyPerplexityFinal { content := "", meta := {} } c5data)
          ("Completed • id: " ++ "j1")) :=
  ⟨rfl, poller_matches_final_merge "j1" {} c5data "R" rfl⟩

/-- Record `web_search_options` of the settings/payload (app.js 31-34, 848-851). -/
structure WebSearchOptions where
  search_context_size : Option String := none
  search_type : Option String := none
deriving DecidableEq

/-- Record `media_response.overrides` (app.js 40-44, 854-856). -/
structure MediaOverrides where
  return_videos : Bool := false
deriving DecidableEq

/-- Record `media_response` (app.js 40-44, 854-856). -/
structure MediaResponse where
  overrides : MediaOverrides := {}
deriving DecidableEq

/-- One chat message of the request.  Multipart attachment content is out of
scope (spec §1); `buildPayload` copies messages through unchanged up to
stringification of their content. -/
structure ChatMessage where
  role : String
  content : String
deriving DecidableEq

/-- The settings record consumed by `buildPayload` (`state.settings`,
app.js 19-48): `none` models JSON `null`/absent. -/
structure Settings where
  model : String := "sonar"
  search_mode : String := "web"
  stream : Bool := true
  stream_mode : Option String := some "full"
  safe_search : Bool := true
  max_tokens : Option Int := none
  reasoning_effort : Option String := none
  language_preference : Option String := none
  return_images : Bool := false
  return_related_questions : Bool := false
  enable_search_classifier : Bool := false
  disable_search : Bool := false
  search_domain_filter : List String := []
  search_language_filter : List String := []
  search_recency_filter : Option String := none
  image_domain_filter : List String := []
  image_format_filter : List String := []
  web_search_options : WebSearchOptions := {}
  media_response : MediaResponse := {}
  system_prompt : String := ""
deriving DecidableEq

/-- The request payload built by `buildPayload` (app.js 821-858).  A field
of `Option` type models a key that the source adds to the object only
conditionally; `none` means the key is absent from the built request. -/
structure Payload where
  model : String
  messages : List ChatMessage
  search_mode : String
  stream : Bool
  stream_mode : String
  safe_search : Bool
  max_tokens : Option Int := none
  reasoning_effort : Option String := none
  language_preference : Option String := none
  return_images : Option Bool := none
  return_related_questions : Option Bool := none
  enable_search_classifier : Option Bool := none
  disable_search : Option Bool := none
  search_domain_filter : Option (List String) := none
  search_language_filter : Option (List String) := none
  search_recency_filter : Option String := none
  image_domain_filter : Option (List String) := none
  image_format_filter : Option (List String) := none
  web_search_options : Option WebSearchOptions := none
  media_response : Option MediaResponse := none
deriving DecidableEq

/-- JavaScript truthiness for an optional string: `null`, absent and the
empty string are falsy. -/
def truthyStr (s : Option String) : Option String :=
  match s with
  | some v => if v = "" then none else some v
  | none => none

/-- Embeds `buildPayload` (app.js 804-859): a non-empty system prompt is
prepended as a system message; the base object always carries `model`,
`messages`, `search_mode`, `stream`, `stream_mode` and `safe_search`; every
other field is added only when its value is truthy (non-null, non-false,
non-empty). -/
def buildPayload (s : Settings) (msgs : List ChatMessage) : Payload :=
  let messages :=
    (if strTrim s.system_prompt ≠ "" then
      [{ role := "system", content := strTrim s.system_prompt }]
     else ([] : List ChatMessage)) ++ msgs
  let wso : WebSearchOptions :=
    { search_context_size := truthyStr s.web_search_options.search_context_size,
      search_type := truthyStr s.web_search_options.search_type }
  { model := s.model,
    messages := messages,
    search_mode := s.search_mode,
    stream := s.stream,
    stream_mode :=
      match s.stream_mode with
      | some v => if v = "" then "full" else v
      | none => "full",
    safe_search := s.safe_search,
    max_tokens := s.max_tokens,
    reasoning_effort := truthyStr s.reasoning_effort,
    language_preference := truthyStr s.language_preference,
    return_images := if s.return_images then some true else none,
    return_related_questions := if s.return_related_questions then some true else none,
    enable_search_classifier := if s.enable_search_classifier then some true else none,
    disable_search := if s.disable_search then some true else none,
    search_domain_filter :=
      if s.search_domain_filter ≠ [] then some s.search_domain_filter else none,
    search_language_filter :=
      if s.search_language_filter ≠ [] then some s.search_language_filter else none,
    search_recency_filter := truthyStr s.search_recency_filter,
    image_domain_filter :=
      if s.image_domain_filter ≠ [] then some s.image_domain_filter else none,
    image_format_filter :=
      if s.image_format_filter ≠ [] then some s.image_format_filter else none,
    web_search_options :=
      if wso.search_context_size = none ∧ wso.search_type = none then none else some wso,
    media_response :=
      if s.media_response.overrides.return_videos then
        some { overrides := { return_videos := true } }
      else none }

/-- The spec example's configuration: model `sonar`, `max_tokens` null,
`search_domain_filter` empty. -/
def c7settings : Settings :=
  { model := "sonar", max_tokens := none, search_domain_filter := [] }

/-- C7: the payload builder includes an optional field in the built request
only when that field's value differs from its inactive value (null, false,
empty string or empty collection); in particular the example configuration
`model:"sonar", max_tokens:null, search_domain_filter:[]` produces a request
with no `max_tokens` and no `search_domain_filter` key. -/
theorem buildPayload_drops_inactive_fields :
    (∀ (s : Settings) (msgs : List ChatMessage),
      ((buildPayload s msgs).max_tokens ≠ none ↔ s.max_tokens ≠ none) ∧
      ((buildPayload s msgs).reasoning_effort ≠ none ↔
        (s.reasoning_effort ≠ none ∧ s.reasoning_effort ≠ some "")) ∧
      ((buildPayload s msgs).language_preference ≠ none ↔
        (s.language_preference ≠ none ∧ s.language_preference ≠ some "")) ∧
      ((buildPayload s msgs).return_images ≠ none ↔ s.return_images = true) ∧
      ((buildPayload s msgs).return_related_questions ≠ none ↔
        s.return_related_questions = true) ∧
      ((buildPayload s msgs).enable_search_classifier ≠ none ↔
        s.enable_search_classifier = true) ∧
      ((buildPayload s msgs).disable_search ≠ none ↔ s.disable_search = true) ∧
      ((buildPayload s msgs).search_domain_filter ≠ none ↔ s.search_domain_filter ≠ []) ∧
      ((buildPayload s msgs).search_language_filter ≠ none ↔
        s.search_language_filter ≠ []) ∧
      ((buildPayload s msgs).search_recency_filter ≠ none ↔
        (s.search_recency_filter ≠ none ∧ s.search_recency_filter ≠ some "")) ∧
      ((buildPayload s msgs).image_domain_filter ≠ none ↔ s.image_domain_filter ≠ []) ∧
      ((buildPayload s msgs).image_format_filter ≠ none ↔ s.image_format_filter ≠ []) ∧
      ((buildPayload s msgs).web_search_options ≠ none ↔
        ((s.web_search_options.search_context_size ≠ none ∧
          s.web_search_options.search_context_size ≠ some "") ∨
         (s.web_search_options.search_type ≠ none ∧
          s.web_search_options.search_type ≠ some ""))) ∧
      ((buildPayload s msgs).media_response ≠ none ↔
        s.media_response.overrides.return_videos = true)) ∧
    (buildPayload c7settings []).max_tokens = none ∧
    (buildPayload c7settings []).search_domain_filter = none ∧
    (buildPayload c7settings []).model = "sonar" := by
  refine ⟨fun s msgs => ?_, by decide, by decide, by decide⟩
  rcases s with ⟨mo, sm, st, smo, ss, mt, re, lp, ri, rrq, esc, ds, sdf, slf, srf, idf, iff2,
    wso, mr, sp⟩
  rcases wso with ⟨wcs, wst⟩
  refine ⟨?_, ?_, ?_, ?_, ?_, ?_, ?_, ?_, ?_, ?_, ?_, ?_, ?_, ?_⟩
  · cases mt <;> simp [buildPayload]
  · rcases re with _ | r
    · simp [buildPayload, truthyStr]
    · by_cases hr : r = "" <;> simp [buildPayload, truthyStr, hr]
  · rcases lp with _ | r
    · simp [buildPayload, truthyStr]
    · by_cases hr : r = "" <;> simp [buildPayload, truthyStr, hr]
  · cases ri <;> simp [buildPayload]
  · cases rrq <;> simp [buildPayload]
  · cases esc <;> simp [buildPayload]
  · cases ds <;> simp [buildPayload]
  · cases sdf <;> simp [buildPayload]
  · cases slf <;> simp [buildPayload]
  · rcases srf with _ | r
    · simp [buildPayload, truthyStr]
    · by_cases hr : r = "" <;> simp [buildPayload, truthyStr, hr]
  · cases idf <;> simp [buildPayload]
  · cases iff2 <;> simp [buildPayload]
  · rcases wcs with _ | a <;> rcases wst with _ | b
    · simp [buildPayload, truthyStr]
    · by_cases hb : b = "" <;> simp [buildPayload, truthyStr, hb]
    · by_cases ha : a = "" <;> simp [buildPayload, truthyStr, ha]
    · by_cases ha : a = "" <;> by_cases hb : b = "" <;>
        simp [buildPayload, truthyStr, ha, hb]
  · rcases mr with ⟨⟨rv⟩⟩
    cases rv <;> simp [buildPayload]

/-- JavaScript `a || b` on optional header strings: the first operand wins
unless it is absent or empty (falsy). -/
def jsOr (a b : Option String) : Option String :=
  match a with
  | some s => if s = "" then b else some s
  | none => b

/-- Embeds `getApiKey` (src/server.js 37-42): the `x-pplx-key` header, or
else the `x-perplexity-key` header, trimmed; the empty string when neither
is usable. -/
def getApiKey (h1 h2 : Option String) : String :=
  match jsOr h1 h2 with
  | some k => if k = "" then "" else strTrim k
  | none => ""

/-- The observable action the proxy takes on a request: answer immediately
with an HTTP status and body, or perform the upstream HTTP call with the
given bearer key.  Returning `respond` means no upstream call is made. -/
inductive ProxyAction where
  | respond (status : Nat) (body : String)
  | callUpstream (authKey : String)
deriving DecidableEq

/-- Embeds the credential gate of `proxyPerplexity` (src/server.js 61-65):
a missing key answers 400 before any upstream call; otherwise the upstream
call is made with the key. -/
def proxyPerplexity (h1 h2 : Option String) : ProxyAction :=
  let apiKey := getApiKey h1 h2
  if apiKey = "" then
    .respond 400 "Missing API key. Send it in the x-pplx-key header."
  else .callUpstream apiKey

/-- A credential header that is absent or whitespace-only. -/
def blankHeader : Option String → Bool
  | none => true
  | some s => strTrim s = ""

/-- C8: a request carrying no usable API-key credential in either header
(both absent or whitespace-only) is answered with the fixed client-error
status 400 and the proxy performs no upstream HTTP call (`respond`, never
`callUpstream`). -/
theorem missing_credential_rejected (h1 h2 : Option String)
    (H1 : blankHeader h1 = true) (H2 : blankHeader h2 = true) :
    proxyPerplexity h1 h2
      = .respond 400 "Missing API key. Send it in the x-pplx-key header." := by
  rcases h1 with _ | s1 <;> rcases h2 with _ | s2
  · simp [proxyPerplexity, getApiKey, jsOr]
  · simp only [blankHeader] at H2
    by_cases hs2 : s2 = "" <;>
      simp_all [proxyPerplexity, getApiKey, jsOr, decide_eq_true_eq]
  · simp only [blankHeader] at H1
    by_cases hs1 : s1 = "" <;>
      simp_all [proxyPerplexity, getApiKey, jsOr, decide_eq_true_eq]
  · simp only [blankHeader] at H1 H2
    by_cases hs1 : s1 = "" <;> by_cases hs2 : s2 = "" <;>
      simp_all [proxyPerplexity, getApiKey, jsOr, decide_eq_true_eq]

/-- Witness for C8: an absent first header and a whitespace-only second
header are rejected with 400 and no upstream call. -/
theorem missing_credential_rejected_witness :
    blankHeader none = true ∧ blankHeader (some "  ") = true ∧
    proxyPerplexity none (some "  ")
      = .respond 400 "Missing API key. Send it in the x-pplx-key header." :=
  ⟨by decide, by decide, missing_credential_rejected none (some "  ") (by decide) (by decide)⟩

end Jamper
